import Mathlib

/-!
Verification of the Scene Composition and Publishing Pipeline.

The definitions below are a shallow embedding of the page component
(scene store, publish form, submit workflow, render-start sequence) and of
the server-side upload route, translated from the TypeScript source.
Random draws (scene ids, default gradients) and browser or Node library
calls (FileReader-based base64 encoding, Buffer base64 decoding) are taken
as explicit parameters.
-/

namespace Studio

set_option maxRecDepth 16384

/-- A gradient is a pair of CSS color strings. -/
abbrev Gradient := String × String

/-- The fixed gradient palette (color values only; display names omitted). -/
def gradientOptions : List Gradient :=
  [(("#2563eb"), ("#9333ea")), (("#f97316"), ("#f43f5e")), (("#22d3ee"), ("#6366f1")),
   (("#0ea5e9"), ("#22c55e")), (("#facc15"), ("#ec4899")), (("#0f172a"), ("#312e81"))]

/-- The fixed default topic. -/
def defaultTopic : String := "Automating YouTube Videos with AI Assistants"

/-- Lower bound of the scene duration range. -/
def minDuration : Int := 4

/-- Upper bound of the scene duration range. -/
def maxDuration : Int := 20

/-- The templated default description for a topic. -/
def defaultDescription (topic : String) : String :=
  ("Explore how to build an automated pipeline for YouTube videos around \"") ++ topic ++
    ("\". This guide shows how to script, assemble, and ship production-ready content without manual editing.")

/-- Model of the JavaScript string trim: leading and trailing whitespace
characters are removed from the character sequence. -/
def jsTrim (s : List Char) : List Char :=
  ((s.dropWhile Char.isWhitespace).reverse.dropWhile Char.isWhitespace).reverse

/-- Trim on packed strings. -/
def jsTrimStr (s : String) : String :=
  String.mk (jsTrim s.data)

/-- Model of the JavaScript string split on a single-character separator. -/
def jsSplit (c : Char) : List Char → List (List Char)
  | [] => [[]]
  | d :: rest =>
    if d = c then [] :: jsSplit c rest
    else
      match jsSplit c rest with
      | [] => [[d]]
      | w :: ws => (d :: w) :: ws

/-- Model of the JavaScript string toLowerCase (ASCII case mapping). -/
def jsToLower (s : String) : String :=
  String.mk (s.data.map Char.toLower)

/-- One narrated segment of the video. -/
structure Scene where
  id : String
  title : String
  narration : String
  duration : Int
  gradient : Gradient
  emphasis : Option String
deriving DecidableEq

/-- Scene factory: the duration is always initialized to 6. The random id
from makeId and the randomly drawn default gradient are parameters. -/
def createScene (title narrText : String) (emphasis : Option String)
    (gradient : Gradient) (id : String) : Scene :=
  { id := id, title := title, narration := narrText, duration := 6,
    gradient := gradient, emphasis := emphasis }

/-- Builds the six seeded scenes from a topic. The topic is trimmed and falls
back to defaultTopic when the trimmed topic is empty (the JavaScript
or-else on a falsy string); ids and gradients stand for the random draws. -/
def buildScenesFromTopic (topic : String) (ids : Fin 6 → String)
    (grads : Fin 6 → Gradient) : List Scene :=
  let focus := if (jsTrimStr topic).isEmpty then defaultTopic else jsTrimStr topic
  [ createScene ("Hook")
      (("Why spend days editing when ") ++ focus ++
        (" lets you storyboard, narrate, and publish while you sleep?"))
      (some ("Promise: by the end you\x27ll have a reusable autopilot.")) (grads 0) (ids 0),
    createScene ("System Overview")
      ("We break down the automated studio into three loops: ideation, production, and publishing. Each loop is orchestrated by workflows that watch for new ideas then generate finished episodes.")
      (some ("Visualize the pipeline as an assembly line from prompt to publish.")) (grads 1) (ids 1),
    createScene ("Asset Generation")
      ("Scripts, narration, and visuals are produced through composable agents. We chunk the narrative, batch-render slides, and synthesize voice overs so that the heavy lifting is done without editors.")
      (some ("Tip: reuse templates per content pillar to stay on brand.")) (grads 2) (ids 2),
    createScene ("Video Assembly")
      ("Slides and audio are merged with FFmpeg on-demand, yielding high quality MP4 files ready for upload. Effects like zooms or overlays can be added through programmable filters.")
      (some ("Result: deterministic renders with predictable timing.")) (grads 3) (ids 3),
    createScene ("Deployment")
      ("Finally the pipeline pushes metadata, thumbnails, and the compiled video to YouTube through their API. Schedule, tag, and publish in a single request while analytics feeds future iterations.")
      (some ("Close with a call-to-action that matches your funnel.")) (grads 4) (ids 4),
    createScene ("Call To Action")
      (("Start automating your ") ++ jsToLower focus ++
        (" today and reinvest saved hours into strategy and community."))
      (some ("Subscribe for more build logs and automation recipes.")) (grads 5) (ids 5) ]

/-- Publish form state. The TypeScript type annotates privacyStatus with the
closed union of the three YouTube privacy values, but the runtime value is
whatever string was stored, so it is embedded as String; the optional
status field is embedded as Option String. -/
structure YoutubeFormState where
  title : String
  description : String
  tags : List String
  privacyStatus : String
  clientId : String
  clientSecret : String
  refreshToken : String
  status : Option String
deriving DecidableEq

/-- The topic-derived initial form. -/
def initialYoutubeForm (topic : String) : YoutubeFormState :=
  { title := topic,
    description := defaultDescription topic,
    tags := [("automation"), ("youtube"), ("ai workflow")],
    privacyStatus := ("private"),
    clientId := (""),
    clientSecret := (""),
    refreshToken := (""),
    status := some ("") }

/-- Publish-readiness predicate: the double-negation truthiness checks on the
five string fields are non-emptiness checks. -/
def isYoutubeFormValid (form : YoutubeFormState) (hasVideo : Bool) : Bool :=
  hasVideo && !form.clientId.isEmpty && !form.clientSecret.isEmpty &&
    !form.refreshToken.isEmpty && !form.title.isEmpty && !form.description.isEmpty

/-- Keys of YoutubeFormState, the domain of handleYoutubeChange. -/
inductive YoutubeField where
  | title
  | description
  | tags
  | privacyStatus
  | clientId
  | clientSecret
  | refreshToken
  | status
deriving DecidableEq

/-- Field update handler. The tags branch normalizes the raw comma-separated
input on every update; the privacyStatus branch checks membership in the
closed enumeration, but when the check fails control falls through to the
computed-key spread, which writes the raw value to the keyed field, so an
invalid privacyStatus value is stored as well. -/
def handleYoutubeChange (prev : YoutubeFormState) (key : YoutubeField)
    (value : String) : YoutubeFormState :=
  match key with
  | .tags =>
      { prev with
        tags := ((jsSplit ',' value.data).map (fun tag => String.mk (jsTrim tag))).filter
          (fun t => !t.isEmpty) }
  | .privacyStatus =>
      if value = ("public") || value = ("private") || value = ("unlisted") then
        { prev with privacyStatus := value }
      else
        { prev with privacyStatus := value }
  | .title => { prev with title := value }
  | .description => { prev with description := value }
  | .clientId => { prev with clientId := value }
  | .clientSecret => { prev with clientSecret := value }
  | .refreshToken => { prev with refreshToken := value }
  | .status => { prev with status := some value }

/-- Appends a copy of the given scene with a fresh id (parameter standing for
makeId) and a derived title. No membership check of the scene in the store
is performed. -/
def handleDuplicateScene (prev : List Scene) (scene : Scene) (newId : String) : List Scene :=
  prev ++ [{ scene with id := newId, title := scene.title ++ (" (extended)") }]

/-- Derived total runtime over the scene list. -/
def totalRuntime (scenes : List Scene) : Int :=
  scenes.foldl (fun sum scene => sum + max scene.duration minDuration) 0

/-- Rebuilds the scenes from the topic and resets the form to the
topic-derived defaults; the previous scenes and the previous form are
ignored by the two setters. -/
def regenerateScenes (topic : String) (prevScenes : List Scene)
    (prevForm : YoutubeFormState) (ids : Fin 6 → String)
    (grads : Fin 6 → Gradient) : List Scene × YoutubeFormState :=
  (buildScenesFromTopic topic ids grads, initialYoutubeForm topic)

/-- Bytes of a binary blob. -/
abbrev BlobBytes := List Nat

/-- The immutable composition snapshot submitted to the render engine. -/
structure Composition where
  scenes : List Scene
  width : Int
  height : Int
  fps : Int
  backgroundAudio : Option String
deriving DecidableEq

/-- State-setting and render-submission steps performed by the page
component during beginGeneration. -/
inductive StudioEvent where
  | setVideoUrl (v : Option String)
  | setVideoBlob (v : Option BlobBytes)
  | submitRender (c : Composition)
deriving DecidableEq

/-- Whether an event is the render submission. -/
def StudioEvent.isSubmit : StudioEvent → Bool
  | .submitRender _ => true
  | _ => false

/-- The video preview state held by the page component. -/
structure RenderState where
  videoUrl : Option String
  videoBlob : Option BlobBytes
deriving DecidableEq

/-- Effect of one event on the preview state. -/
def applyEvent (s : RenderState) : StudioEvent → RenderState
  | .setVideoUrl v => { s with videoUrl := v }
  | .setVideoBlob v => { s with videoBlob := v }
  | .submitRender _ => s

/-- The composition object built inside beginGeneration from the current
scenes and the optional background audio. -/
def buildComposition (scenes : List Scene) (backgroundAudio : Option String) : Composition :=
  { scenes := scenes, width := 1280, height := 720, fps := 30, backgroundAudio := backgroundAudio }

/-- The ordered steps of beginGeneration up to and including the submission
of the render job: clear the playable url, clear the blob, then submit the
freshly built composition. -/
def beginGenerationEvents (scenes : List Scene) (backgroundAudio : Option String) :
    List StudioEvent :=
  [ .setVideoUrl none,
    .setVideoBlob none,
    .submitRender (buildComposition scenes backgroundAudio) ]

/-- The request payload submitted to the upload route: the spread of the
whole form plus the encoded video. -/
structure SubmitPayload where
  form : YoutubeFormState
  videoBase64 : String
deriving DecidableEq

/-- Observable outcome of submitYoutubeUpload up to the network boundary. -/
inductive SubmitAction where
  | noArtifactAbort
  | encodingFailure (msg : String)
  | dispatch (payload : SubmitPayload)
deriving DecidableEq

/-- The submit handler: aborts with a user-facing message when no video blob
exists; otherwise encodes the blob (encode stands for the FileReader-based
blobToBase64, which can reject) and dispatches the request. No form field
is re-checked before dispatch. -/
def submitYoutubeUpload (form : YoutubeFormState) (videoBlob : Option BlobBytes)
    (encode : BlobBytes → Except String String) : SubmitAction :=
  match videoBlob with
  | none => .noArtifactAbort
  | some blob =>
    match encode blob with
    | .error msg => .encodingFailure msg
    | .ok videoBase64 => .dispatch { form := form, videoBase64 := videoBase64 }

/-- The JSON request body of the upload route as received: each field may be
absent. -/
structure RawBody where
  videoBase64 : Option String
  title : Option String
  description : Option String
  tags : Option (List String)
  privacyStatus : Option String
  clientId : Option String
  clientSecret : Option String
  refreshToken : Option String
deriving DecidableEq

/-- JavaScript truthiness of a possibly-absent string field. -/
def truthyStr : Option String → Bool
  | none => false
  | some s => !s.isEmpty

/-- The validated upload request. -/
structure UploadRequest where
  videoBase64 : String
  title : String
  description : String
  tags : List String
  privacyStatus : String
  clientId : String
  clientSecret : String
  refreshToken : String
deriving DecidableEq

/-- The upload size limit in megabytes. -/
def MAX_UPLOAD_SIZE_MB : Nat := 256

/-- parseBody of the upload route: none models a null or non-object JSON
value; the field checks mirror the JavaScript truthiness guards, and tags
and privacyStatus take their destructuring defaults when absent. -/
def parseBody (data : Option RawBody) : Except String UploadRequest :=
  match data with
  | none => .error ("Invalid payload.")
  | some d =>
    if !truthyStr d.videoBase64 then .error ("Missing video payload.")
    else if !truthyStr d.title then .error ("Missing title.")
    else if !truthyStr d.description then .error ("Missing description.")
    else if !truthyStr d.clientId || !truthyStr d.clientSecret || !truthyStr d.refreshToken then
      .error ("OAuth credentials are required.")
    else
      .ok { videoBase64 := d.videoBase64.getD (""), title := d.title.getD (""),
            description := d.description.getD (""), tags := d.tags.getD [],
            privacyStatus := d.privacyStatus.getD ("private"),
            clientId := d.clientId.getD (""), clientSecret := d.clientSecret.getD (""),
            refreshToken := d.refreshToken.getD ("") }

/-- decodeVideo of the upload route. The base64 decoding itself is Node
library code (Buffer.from), so the decoded byte length is the argument; the
check sizeMb greater than 256 on the real quotient of the byte length by
1024 * 1024 is exactly the integer comparison below, and the thrown message
is the template instantiated with MAX_UPLOAD_SIZE_MB. -/
def decodeVideo (byteLength : Nat) : Except String Nat :=
  if MAX_UPLOAD_SIZE_MB * 1024 * 1024 < byteLength then
    .error ("Video too large. Limit is 256MB.")
  else
    .ok byteLength

/-- Observable outcome of the POST handler up to the call of the upload
service: every thrown validation error is caught and returned as a 400
response whose JSON body carries the error message. -/
inductive PostOutcome where
  | errorResponse (status : Nat) (error : String)
  | uploadCall (payload : UploadRequest) (videoLength : Nat)
deriving DecidableEq

/-- Whether the outcome is a 400 error response (and hence not a call of the
upload service). -/
def PostOutcome.isError400 : PostOutcome → Bool
  | .errorResponse status _ => status == 400
  | .uploadCall _ _ => false

/-- The POST handler of the upload route up to the upload-service call. -/
def POST (body : Option RawBody) (decodedLength : Nat) : PostOutcome :=
  match parseBody body with
  | .error msg => .errorResponse 400 msg
  | .ok payload =>
    match decodeVideo decodedLength with
    | .error msg => .errorResponse 400 msg
    | .ok len => .uploadCall payload len

/-- A concrete topic for concrete instances. -/
def sampleTopic : String := "Test Topic"

/-- A concrete scene with a chosen duration, for concrete instances. -/
def sceneWithDuration (d : Int) : Scene :=
  { id := ("scene-id"), title := ("Hook"), narration := ("n"), duration := d,
    gradient := ((("#2563eb")), (("#9333ea"))), emphasis := none }

/-- A request body with every field absent. -/
def emptyRawBody : RawBody :=
  { videoBase64 := none, title := none, description := none, tags := none,
    privacyStatus := none, clientId := none, clientSecret := none, refreshToken := none }

/-- A request body with every required field present and non-empty. -/
def fullRawBody : RawBody :=
  { videoBase64 := some ("QUFB"), title := some ("T"), description := some ("D"),
    tags := some [("x"), ("y")], privacyStatus := some ("private"),
    clientId := some ("i"), clientSecret := some ("s"), refreshToken := some ("r") }

/-- A string has false isEmpty exactly when it differs from the empty
string. -/
theorem isEmpty_false_iff (s : String) : s.isEmpty = false ↔ ¬ s = ("") := by
  rw [← String.isEmpty_iff]
  cases s.isEmpty <;> simp

/-- Folding the runtime accumulator distributes over the mapped list. -/
theorem foldl_add_max (scenes : List Scene) (a : Int) :
    scenes.foldl (fun sum scene => sum + max scene.duration minDuration) a
      = a + (scenes.map (fun scene => max scene.duration minDuration)).sum := by
  induction scenes generalizing a with
  | nil => simp
  | cons x xs ih => simp [ih, add_assoc]

/-- C5: the publish-readiness predicate isYoutubeFormValid form hasVideo is
true exactly when hasVideo holds and clientId, clientSecret, refreshToken,
title and description are all non-empty strings. -/
theorem isYoutubeFormValid_iff (form : YoutubeFormState) (hasVideo : Bool) :
    isYoutubeFormValid form hasVideo = true ↔
      (hasVideo = true ∧ form.clientId ≠ ("") ∧ form.clientSecret ≠ ("") ∧
        form.refreshToken ≠ ("") ∧ form.title ≠ ("") ∧ form.description ≠ ("")) := by
  simp [isYoutubeFormValid, Bool.and_eq_true, isEmpty_false_iff, and_assoc]

/-- C4: totalRuntime is the sum of the duration of each scene raised to the
floor minDuration, minDuration is 4, and for scene durations 4, 6, 20 and 2
the total runtime is 34. -/
theorem totalRuntime_eq_sum_max (scenes : List Scene) :
    totalRuntime scenes = (scenes.map (fun scene => max scene.duration minDuration)).sum ∧
      minDuration = 4 ∧
      totalRuntime (([4, 6, 20, 2] : List Int).map sceneWithDuration) = 34 := by
  refine ⟨?_, rfl, by decide⟩
  simpa using foldl_add_max scenes 0

/-- C6: every update through the tags key stores the raw input split on
commas, with each piece trimmed and empty pieces dropped, duplicates kept,
and the input "a, ,b,b " yields exactly the tags a, b, b. -/
theorem handleYoutubeChange_tags (prev : YoutubeFormState) (value : String) :
    (handleYoutubeChange prev .tags value).tags
        = ((jsSplit ',' value.data).map (fun tag => String.mk (jsTrim tag))).filter
            (fun t => !t.isEmpty) ∧
      (handleYoutubeChange (initialYoutubeForm sampleTopic) .tags ("a, ,b,b ")).tags
        = [("a"), ("b"), ("b")] := by
  exact ⟨rfl, by decide⟩

/-- C2 fails on the code (code bug): updating privacyStatus with a value
outside the closed enumeration does not leave the form unchanged — the
computed-key fall-through stores the invalid value — while each of the three
allowed values is stored as such. -/
theorem handleYoutubeChange_privacy_bug :
    (handleYoutubeChange (initialYoutubeForm sampleTopic) .privacyStatus ("secret")).privacyStatus
        = ("secret") ∧
      handleYoutubeChange (initialYoutubeForm sampleTopic) .privacyStatus ("secret")
        ≠ initialYoutubeForm sampleTopic ∧
      (initialYoutubeForm sampleTopic).privacyStatus = ("private") ∧
      (handleYoutubeChange (initialYoutubeForm sampleTopic) .privacyStatus ("public")).privacyStatus
        = ("public") ∧
      (handleYoutubeChange (initialYoutubeForm sampleTopic) .privacyStatus ("unlisted")).privacyStatus
        = ("unlisted") ∧
      handleYoutubeChange (initialYoutubeForm sampleTopic) .privacyStatus ("private")
        = initialYoutubeForm sampleTopic := by
  decide

/-- C1 fails on the code as stated: with an artifact present and an empty
clientId the readiness predicate is false, yet the submit workflow
dispatches the network request instead of failing. -/
theorem submit_no_revalidation_cex :
    isYoutubeFormValid (initialYoutubeForm sampleTopic) true = false ∧
      submitYoutubeUpload (initialYoutubeForm sampleTopic) (some [1]) (fun _ => .ok ("QUFB"))
        = .dispatch { form := initialYoutubeForm sampleTopic, videoBase64 := ("QUFB") } := by
  decide

/-- C1 amended: the workflow re-validates only artifact presence before
dispatch; with no artifact it fails fast without sending any network
request, and with an artifact whose encoding succeeds it dispatches without
re-checking the credential, title or description fields. -/
theorem submit_guards_artifact_only (form : YoutubeFormState)
    (encode : BlobBytes → Except String String) :
    submitYoutubeUpload form none encode = .noArtifactAbort ∧
      (∀ blob s, encode blob = .ok s →
        submitYoutubeUpload form (some blob) encode
          = .dispatch { form := form, videoBase64 := s }) := by
  refine ⟨rfl, fun blob s h => ?_⟩
  simp [submitYoutubeUpload, h]

/-- Witness for the amended C1 at a concrete form, blob and encoder. -/
theorem submit_guards_artifact_only_w :
    submitYoutubeUpload (initialYoutubeForm sampleTopic) none (fun _ => .ok ("QUFB"))
        = .noArtifactAbort ∧
      submitYoutubeUpload (initialYoutubeForm sampleTopic) (some [2]) (fun _ => .ok ("QUFB"))
        = .dispatch { form := initialYoutubeForm sampleTopic, videoBase64 := ("QUFB") } :=
  ⟨(submit_guards_artifact_only (initialYoutubeForm sampleTopic) (fun _ => .ok ("QUFB"))).1,
    (submit_guards_artifact_only (initialYoutubeForm sampleTopic) (fun _ => .ok ("QUFB"))).2
      [2] ("QUFB") rfl⟩

/-- C3 fails on the code as stated: duplicating a scene whose id occurs
nowhere in the store still appends a new scene, so the store changes. -/
theorem duplicate_absent_id_cex :
    (([] : List Scene).all (fun s => s.id != (sceneWithDuration 6).id)) = true ∧
      handleDuplicateScene [] (sceneWithDuration 6) ("fresh") ≠ [] := by
  decide

/-- C3 amended: duplication receives the scene value itself, not an id, and
appends unconditionally — even for a scene absent from the store — keeping
the previous scenes as a prefix and adding exactly one scene: the copy of
the given scene with the fresh id and the title suffixed. -/
theorem duplicate_appends (prev : List Scene) (scene : Scene) (newId : String) :
    (handleDuplicateScene prev scene newId).length = prev.length + 1 ∧
      (handleDuplicateScene prev scene newId).take prev.length = prev ∧
      (handleDuplicateScene prev scene newId).drop prev.length
        = [{ scene with id := newId, title := scene.title ++ (" (extended)") }] := by
  refine ⟨?_, ?_, ?_⟩
  · simp [handleDuplicateScene]
  · simp [handleDuplicateScene, List.take_left]
  · simp [handleDuplicateScene, List.drop_left]

/-- C8: for every prior preview state, the events of beginGeneration that
precede the render submission clear both the playable url and the blob, and
the submission of the freshly built composition follows them. -/
theorem beginGeneration_clears_first (s : RenderState) (scenes : List Scene)
    (audio : Option String) :
    ((beginGenerationEvents scenes audio).takeWhile (fun e => !e.isSubmit)).foldl applyEvent s
        = { videoUrl := none, videoBlob := none } ∧
      (beginGenerationEvents scenes audio).dropWhile (fun e => !e.isSubmit)
        = [.submitRender (buildComposition scenes audio)] := by
  exact ⟨rfl, rfl⟩

/-- C9: seeding from any topic yields exactly six scenes, each of duration 6,
with total runtime 36, and the hook narration is templated from the trimmed
topic, the default topic being substituted when the trimmed topic is empty. -/
theorem buildScenesFromTopic_shape (topic : String) (ids : Fin 6 → String)
    (grads : Fin 6 → Gradient) :
    (buildScenesFromTopic topic ids grads).length = 6 ∧
      (buildScenesFromTopic topic ids grads).map Scene.duration = [6, 6, 6, 6, 6, 6] ∧
      totalRuntime (buildScenesFromTopic topic ids grads) = 36 ∧
      ((buildScenesFromTopic topic ids grads).map Scene.narration).head?
        = some (("Why spend days editing when ")
            ++ (if (jsTrimStr topic).isEmpty then defaultTopic else jsTrimStr topic)
            ++ (" lets you storyboard, narrate, and publish while you sleep?")) := by
  refine ⟨rfl, rfl, ?_, rfl⟩
  simp [totalRuntime, buildScenesFromTopic, createScene, max_def, minDuration]

/-- C10: regenerating from a topic replaces the whole publish form with the
topic-derived defaults — title the topic, templated description, the fixed
default tags, private privacy, empty credentials — whatever the previous
form held, and rebuilds the scenes from the topic. -/
theorem regenerateScenes_resets_form (topic : String) (prevScenes : List Scene)
    (prevForm : YoutubeFormState) (ids : Fin 6 → String) (grads : Fin 6 → Gradient) :
    (regenerateScenes topic prevScenes prevForm ids grads).2
        = { title := topic, description := defaultDescription topic,
            tags := [("automation"), ("youtube"), ("ai workflow")],
            privacyStatus := ("private"), clientId := (""), clientSecret := (""),
            refreshToken := (""), status := some ("") } ∧
      (regenerateScenes topic prevScenes prevForm ids grads).1
        = buildScenesFromTopic topic ids grads := by
  exact ⟨rfl, rfl⟩

/-- C7: the POST handler answers any request with a falsy required field by a
400 error response carrying a message, answers any oversized decoded payload
by a 400 error response, in both cases never reaching the upload-service
call, and when every required field is present the oversize answer carries
exactly the size-limit message. -/
theorem POST_validation (d : RawBody) (n : Nat) :
    ((truthyStr d.videoBase64 = false ∨ truthyStr d.title = false ∨
      truthyStr d.description = false ∨ truthyStr d.clientId = false ∨
      truthyStr d.clientSecret = false ∨ truthyStr d.refreshToken = false) →
        (POST (some d) n).isError400 = true) ∧
      (MAX_UPLOAD_SIZE_MB * 1024 * 1024 < n → (POST (some d) n).isError400 = true) ∧
      (MAX_UPLOAD_SIZE_MB * 1024 * 1024 < n →
        ∀ req, parseBody (some d) = .ok req →
          POST (some d) n = .errorResponse 400 ("Video too large. Limit is 256MB.")) := by
  cases h1 : truthyStr d.videoBase64 <;> cases h2 : truthyStr d.title <;>
    cases h3 : truthyStr d.description <;> cases h4 : truthyStr d.clientId <;>
    cases h5 : truthyStr d.clientSecret <;> cases h6 : truthyStr d.refreshToken <;>
    refine ⟨fun h => ?_, fun hn => ?_, fun hn req hreq => ?_⟩ <;>
    simp_all [POST, parseBody, decodeVideo, PostOutcome.isError400]

/-- Witness for C7 at a body with the video payload absent and at a complete
body with an oversized decoded payload. -/
theorem POST_validation_w :
    (POST (some emptyRawBody) 10).isError400 = true ∧
      (POST (some fullRawBody) 268435457).isError400 = true ∧
      POST (some fullRawBody) 268435457
        = .errorResponse 400 ("Video too large. Limit is 256MB.") :=
  ⟨(POST_validation emptyRawBody 10).1 (Or.inl rfl),
    (POST_validation fullRawBody 268435457).2.1 (by decide),
    (POST_validation fullRawBody 268435457).2.2 (by decide) _ rfl⟩

end Studio
